import Mathlib

/-!
Verification of the BEU result correction monitor (monitor.py).

The development shallowly embeds the two stateful cores of the program:
the correction state machine (method process result) and the availability
tracker (method handle website status) of class BEUResultMonitor, together
with the module-level configuration constants. Timestamps are natural
numbers of seconds; the mark read from the result table is a string.
-/

namespace BEUMonitor

/-- Configuration constant CURRENT_WRONG_VALUE from monitor.py line 39. -/
def CURRENT_WRONG_VALUE : String := "NA"

/-- Configuration constant EXPECTED_MARK from monitor.py line 40. -/
def EXPECTED_MARK : String := "68"

/-- Configuration constant CHECK_INTERVAL (seconds) from monitor.py line 51. -/
def CHECK_INTERVAL : Nat := 30

/-- Configuration constant SITE_DOWN_GRACE (seconds) from monitor.py line 52. -/
def SITE_DOWN_GRACE : Nat := 300

/-- Configuration constant SITE_DOWN_REMINDER (seconds) from monitor.py line 53. -/
def SITE_DOWN_REMINDER : Nat := 3600

/-- Python str.isdigit restricted to ASCII: nonempty and every character a
decimal digit.  All marks appearing in the program and the spec are ASCII. -/
def pyIsdigit (s : String) : Bool := !s.isEmpty && s.toList.all Char.isDigit

/-- The fields of the dictionary built by fetch result page that the
processing method reads: success, and the mark text (read only when
success is true; the source stores None in the failure case and the
processing method returns before touching it). -/
structure ResultSnapshot where
  success : Bool
  mark : String
deriving DecidableEq

/-- The user-facing correction events (the Telegram messages sent by
process result, tagged as in the spec). -/
inductive CorrectionEvent where
  | DETECTED (value : String)
  | CONFIRMED (value : String)
  | REVERTED
  | CHANGED (value : String)
deriving DecidableEq

/-- The correction-tracking fields of BEUResultMonitor
(monitor.py lines 71 and 72). -/
structure CorrectionState where
  correction_detected : Bool
  verification_count : Nat
deriving DecidableEq

/-- Initial correction state set in the constructor (monitor.py lines 71, 72). -/
def initCorrectionState : CorrectionState :=
  { correction_detected := false, verification_count := 0 }

/-- The is corrected flag computed at monitor.py lines 381 to 391:
exact match with EXPECTED_MARK, or a digit string different from
CURRENT_WRONG_VALUE. -/
def is_corrected (mark : String) : Bool :=
  mark == EXPECTED_MARK || (pyIsdigit mark && mark != CURRENT_WRONG_VALUE)

/-- Shallow embedding of process result (monitor.py lines 369 to 477):
given the current state and a snapshot, return the new state and the
list of emitted events.  The early return on a failed fetch, the
detection branch, the three-strikes confirmation, the reversion branch
and the changed-value branch mirror the source control flow. -/
def process_result (st : CorrectionState) (r : ResultSnapshot) :
    CorrectionState × List CorrectionEvent :=
  if !r.success then (st, [])
  else if is_corrected r.mark then
    if !st.correction_detected then
      ({ correction_detected := true, verification_count := 1 },
       [.DETECTED r.mark])
    else
      let vc := st.verification_count + 1
      if vc = 3 then ({ st with verification_count := vc }, [.CONFIRMED r.mark])
      else ({ st with verification_count := vc }, [])
  else if r.mark = CURRENT_WRONG_VALUE then
    if st.correction_detected then
      ({ correction_detected := false, verification_count := 0 }, [.REVERTED])
    else (st, [])
  else
    if !st.correction_detected then
      ({ st with correction_detected := true }, [.CHANGED r.mark])
    else (st, [])

/-- Iterate process result over a list of snapshots, collecting events in
order (one snapshot per monitoring cycle). -/
def process_list : CorrectionState → List ResultSnapshot →
    CorrectionState × List CorrectionEvent
  | st, [] => (st, [])
  | st, r :: rs =>
    let p := process_result st r
    let q := process_list p.1 rs
    (q.1, p.2 ++ q.2)

/-- Number of CONFIRMED events in a list of events. -/
def countConfirmed (evs : List CorrectionEvent) : Nat :=
  evs.countP (fun e => match e with | .CONFIRMED _ => true | _ => false)

/-- Number of DETECTED events in a list of events. -/
def countDetected (evs : List CorrectionEvent) : Nat :=
  evs.countP (fun e => match e with | .DETECTED _ => true | _ => false)

/-- Number of snapshots in a list whose mark passes the is corrected test
(the confirming observations). -/
def confirmingCount (rs : List ResultSnapshot) : Nat :=
  rs.countP (fun r => is_corrected r.mark)

/-- The user-facing availability events (the Telegram messages sent by
handle website status, tagged as in the spec; the minute payloads are the
integer minute counts the messages report). -/
inductive AvailEvent where
  | DOWN
  | STILL_DOWN (minutes : Nat)
  | BACK_UP (minutes : Nat)
deriving DecidableEq

/-- The availability-tracking fields of BEUResultMonitor
(monitor.py lines 69, 70 and 73). -/
structure AvailabilityState where
  site_down_since : Option Nat
  site_down_notified : Bool
  consecutive_failures : Nat
deriving DecidableEq

/-- Initial availability state set in the constructor
(monitor.py lines 69, 70, 73). -/
def initAvailabilityState : AvailabilityState :=
  { site_down_since := none, site_down_notified := false,
    consecutive_failures := 0 }

/-- The Python truthiness test in the line
if not self.site_down_since (monitor.py line 317):
None and the timestamp 0 are falsy, any other timestamp is truthy. -/
def downSinceFalsy (st : AvailabilityState) : Bool :=
  match st.site_down_since with
  | none => true
  | some t => t == 0

/-- Shallow embedding of handle website status (monitor.py lines 311 to 367):
given the current state, the probe outcome and the current time in
seconds, return the new state and the list of emitted events.  Note that
in the source the failure counter is incremented, and the grace-period
threshold checked, only inside the branch taken when site down since is
still unset; afterwards only the reminder test runs.  The threshold
SITE_DOWN_GRACE / CHECK_INTERVAL is Python float division, exact here
(300 / 30 = 10), so natural division coincides. -/
def handle_website_status (st : AvailabilityState) (is_accessible : Bool)
    (current_time : Nat) : AvailabilityState × List AvailEvent :=
  if !is_accessible then
    if downSinceFalsy st then
      let st1 : AvailabilityState :=
        { st with site_down_since := some current_time,
                  consecutive_failures := st.consecutive_failures + 1 }
      if SITE_DOWN_GRACE / CHECK_INTERVAL ≤ st1.consecutive_failures then
        if !st1.site_down_notified then
          ({ st1 with site_down_notified := true }, [.DOWN])
        else (st1, [])
      else (st1, [])
    else
      if st.site_down_notified &&
          SITE_DOWN_REMINDER ≤ current_time - st.site_down_since.getD 0 then
        (st, [.STILL_DOWN ((current_time - st.site_down_since.getD 0) / 60)])
      else (st, [])
  else
    match st.site_down_since with
    | some since =>
        ({ site_down_since := none, site_down_notified := false,
           consecutive_failures := 0 },
         [.BACK_UP ((current_time - since) / 60)])
    | none => ({ st with consecutive_failures := 0 }, [])

/-- Iterate handle website status over a list of probes, each a pair of
the accessibility outcome and the probe time, collecting events in order. -/
def run_availability : AvailabilityState → List (Bool × Nat) →
    AvailabilityState × List AvailEvent
  | st, [] => (st, [])
  | st, (acc, t) :: rest =>
    let p := handle_website_status st acc t
    let q := run_availability p.1 rest
    (q.1, p.2 ++ q.2)

/-- Scenario C of the spec: ten consecutive unreachable probes, thirty
seconds apart, starting at time 1000. -/
def tenUnreachableProbes : List (Bool × Nat) :=
  [(false, 1000), (false, 1030), (false, 1060), (false, 1090),
   (false, 1120), (false, 1150), (false, 1180), (false, 1210),
   (false, 1240), (false, 1270)]

/-- From the spec (section 3, ValueClass): IsPlaceholder if rawValue equals
the placeholder constant. -/
def isPlaceholderClass (v : String) : Bool := v == CURRENT_WRONG_VALUE

/-- From the spec (section 3, ValueClass): IsExpected if rawValue equals the
expected constant. -/
def isExpectedClass (v : String) : Bool := v == EXPECTED_MARK

/-- From the spec (section 3, ValueClass), read literally: IsOtherNumeric if
rawValue is numeric and not equal to the placeholder. -/
def isOtherNumericClass (v : String) : Bool :=
  pyIsdigit v && v != CURRENT_WRONG_VALUE

/-- From the spec (section 3, ValueClass): IsOtherNonNumeric otherwise,
that is, when none of the other three classes holds. -/
def isOtherNonNumericClass (v : String) : Bool :=
  !(isPlaceholderClass v || isExpectedClass v || isOtherNumericClass v)

/-- How many of the four spec classes, read literally, hold for a value. -/
def classCount (v : String) : Nat :=
  (if isPlaceholderClass v then 1 else 0) +
  (if isExpectedClass v then 1 else 0) +
  (if isOtherNumericClass v then 1 else 0) +
  (if isOtherNonNumericClass v then 1 else 0)

/-- The IsOtherNumeric class amended to exclude the expected value as well
as the placeholder (equivalently, the spec classes assigned by first match
in their listed order). -/
def isOtherNumericClassAmended (v : String) : Bool :=
  pyIsdigit v && v != CURRENT_WRONG_VALUE && v != EXPECTED_MARK

/-- How many of the four classes hold once IsOtherNumeric is amended and
the otherwise class is taken relative to the amended classes. -/
def classCountAmended (v : String) : Nat :=
  (if isPlaceholderClass v then 1 else 0) +
  (if isExpectedClass v then 1 else 0) +
  (if isOtherNumericClassAmended v then 1 else 0) +
  (if !(isPlaceholderClass v || isExpectedClass v ||
        isOtherNumericClassAmended v) then 1 else 0)

/-!  Theorems about the embedded program.  -/

/-- Claim C1.  The claim states that from the initial availability state,
with poll interval 30 s and grace 300 s, ten consecutive unreachable probes
make the tracker emit DOWN on the tenth and set the notified flag.  The
code does not: the failure counter is incremented only on the very first
unreachable probe (while site down since is unset), so it never exceeds 1
and never reaches the threshold 10; after ten unreachable probes no event
at all has been emitted and the notified flag is still false. -/
theorem down_never_fires_after_ten_failures :
    run_availability initAvailabilityState tenUnreachableProbes =
      ({ site_down_since := some 1000, site_down_notified := false,
         consecutive_failures := 1 }, []) := by
  decide

/-- Claim C4: processing a snapshot whose fetch failed leaves the
correction state unchanged and emits no event. -/
theorem failed_fetch_inert (st : CorrectionState) (r : ResultSnapshot)
    (h : r.success = false) : process_result st r = (st, []) := by
  simp [process_result, h]

/-- Witness for claim C4 at a concrete failed snapshot. -/
theorem failed_fetch_inert_witness :
    process_result { correction_detected := true, verification_count := 2 }
        { success := false, mark := "" } =
      ({ correction_detected := true, verification_count := 2 }, []) :=
  failed_fetch_inert
    { correction_detected := true, verification_count := 2 }
    { success := false, mark := "" } rfl

/-- Claim C7.  The claim states that while the tracker is confirmed down a
STILL DOWN reminder is sent at most once per reminder interval (3600 s),
with a last-reminder timestamp updated on each send.  The code keeps no
last-reminder timestamp: the reminder condition compares the current time
against site down since only, and sending a reminder changes nothing, so
once 3600 s have elapsed since site down since a reminder is emitted on
every 30 s poll cycle.  Here two consecutive polls, thirty seconds apart,
both emit a reminder. -/
theorem reminder_fires_every_cycle :
    (handle_website_status
        { site_down_since := some 1000, site_down_notified := true,
          consecutive_failures := 1 } false 4600).2 =
      [AvailEvent.STILL_DOWN 60] ∧
    (handle_website_status
        (handle_website_status
          { site_down_since := some 1000, site_down_notified := true,
            consecutive_failures := 1 } false 4600).1 false 4630).2 =
      [AvailEvent.STILL_DOWN 60] := by
  decide

/-- Claim C6: on a reachable probe, if an outage was in progress the
tracker emits BACK UP with the outage duration in minutes and resets every
availability field to its initial value; with no outage in progress it
emits nothing; and a further reachable probe after the reset emits
nothing, so BACK UP fires exactly once per outage episode. -/
theorem back_up_once_per_outage (st : AvailabilityState) (t : Nat) :
    (∀ s, st.site_down_since = some s →
      handle_website_status st true t =
        (initAvailabilityState, [AvailEvent.BACK_UP ((t - s) / 60)])) ∧
    (st.site_down_since = none →
      handle_website_status st true t =
        ({ st with consecutive_failures := 0 }, [])) ∧
    (∀ t2, (handle_website_status
        (handle_website_status st true t).1 true t2).2 = []) := by
  refine ⟨?_, ?_, ?_⟩
  · intro s hs
    simp [handle_website_status, hs, initAvailabilityState]
  · intro hs
    simp [handle_website_status, hs]
  · intro t2
    cases hs : st.site_down_since with
    | none => simp [handle_website_status, hs]
    | some s => simp [handle_website_status, hs]

/-- Witness for claim C6: an outage that began at time 100 ends at a
reachable probe at time 400, emitting BACK UP with five minutes. -/
theorem back_up_once_per_outage_witness :
    handle_website_status
        { site_down_since := some 100, site_down_notified := true,
          consecutive_failures := 1 } true 400 =
      (initAvailabilityState, [AvailEvent.BACK_UP 5]) :=
  (back_up_once_per_outage
      { site_down_since := some 100, site_down_notified := true,
        consecutive_failures := 1 } 400).1 100 rfl

/-- Claim C8: the invariant that a positive verification count implies the
detected flag holds in the initial correction state and is preserved by
processing any snapshot. -/
theorem verification_count_invariant :
    (0 < initCorrectionState.verification_count →
      initCorrectionState.correction_detected = true) ∧
    ∀ (st : CorrectionState) (r : ResultSnapshot),
      (0 < st.verification_count → st.correction_detected = true) →
      (0 < (process_result st r).1.verification_count →
        (process_result st r).1.correction_detected = true) := by
  constructor
  · intro h
    exact absurd h (by decide)
  · intro st r hinv
    have hna : is_corrected CURRENT_WRONG_VALUE = false := by decide
    obtain ⟨cd, n⟩ := st
    cases hrs : r.success with
    | false => simpa [process_result, hrs] using hinv
    | true =>
      by_cases hic : is_corrected r.mark = true
      · cases cd with
        | false => simp [process_result, hrs, hic]
        | true => by_cases h3 : n + 1 = 3 <;> simp [process_result, hrs, hic, h3]
      · by_cases hm : r.mark = CURRENT_WRONG_VALUE
        · cases cd with
          | true => simp [process_result, hrs, hic, hm, hna]
          | false => simpa [process_result, hrs, hic, hm, hna] using hinv
        · cases cd <;> simp [process_result, hrs, hic, hm]

/-- Witness for claim C8: a detection from the initial state yields a
state with positive count and the detected flag set. -/
theorem verification_count_invariant_witness :
    (process_result initCorrectionState
        { success := true, mark := "68" }).1.correction_detected = true :=
  verification_count_invariant.2 initCorrectionState
    { success := true, mark := "68" } (by decide) (by decide)

/-- Claim C5: REVERTED is emitted exactly when a found snapshot bearing the
placeholder value is processed while the detected flag is set, and then
both fields reset; a placeholder observation while the flag is clear
changes nothing and emits nothing. -/
theorem reverted_iff_placeholder_while_detected (st : CorrectionState)
    (r : ResultSnapshot) :
    (CorrectionEvent.REVERTED ∈ (process_result st r).2 ↔
      (r.success = true ∧ r.mark = CURRENT_WRONG_VALUE ∧
        st.correction_detected = true)) ∧
    (r.success = true → r.mark = CURRENT_WRONG_VALUE →
      ((st.correction_detected = true →
          process_result st r =
            ({ correction_detected := false, verification_count := 0 },
             [CorrectionEvent.REVERTED])) ∧
       (st.correction_detected = false →
          process_result st r = (st, [])))) := by
  have hna : is_corrected CURRENT_WRONG_VALUE = false := by decide
  obtain ⟨cd, n⟩ := st
  cases hrs : r.success with
  | false => simp [process_result, hrs]
  | true =>
    by_cases hm : r.mark = CURRENT_WRONG_VALUE
    · cases cd <;> simp [process_result, hrs, hm, hna]
    · by_cases hic : is_corrected r.mark = true
      · cases cd with
        | false => simp [process_result, hrs, hm, hic]
        | true => by_cases h3 : n + 1 = 3 <;> simp [process_result, hrs, hm, hic, h3]
      · cases cd <;> simp [process_result, hrs, hm, hic]

/-- Witness for claim C5: a placeholder snapshot processed while detected
resets the state and emits REVERTED. -/
theorem reverted_iff_placeholder_while_detected_witness :
    process_result { correction_detected := true, verification_count := 2 }
        { success := true, mark := "NA" } =
      ({ correction_detected := false, verification_count := 0 },
       [CorrectionEvent.REVERTED]) :=
  ((reverted_iff_placeholder_while_detected
      { correction_detected := true, verification_count := 2 }
      { success := true, mark := "NA" }).2 rfl rfl).1 rfl

/-- Unfolding lemma for process list on a cons, phrased through an
explicit step equation so that rewriting leaves no literal pair
projections behind. -/
theorem process_list_cons (st st1 : CorrectionState)
    (evs : List CorrectionEvent) (r : ResultSnapshot)
    (rs : List ResultSnapshot) (hstep : process_result st r = (st1, evs)) :
    process_list st (r :: rs) =
      ((process_list st1 rs).1, evs ++ (process_list st1 rs).2) := by
  simp [process_list, hstep]

/-- CONFIRMED counting distributes over appending event lists. -/
theorem countConfirmed_append (a b : List CorrectionEvent) :
    countConfirmed (a ++ b) = countConfirmed a + countConfirmed b := by
  simp [countConfirmed, List.countP_append]

/-- An empty event list holds no CONFIRMED event. -/
theorem countConfirmed_nil : countConfirmed [] = 0 := rfl

/-- A singleton CONFIRMED event list counts one CONFIRMED event. -/
theorem countConfirmed_one_confirmed (v : String) :
    countConfirmed [CorrectionEvent.CONFIRMED v] = 1 := rfl

/-- A singleton DETECTED event list counts no CONFIRMED event. -/
theorem countConfirmed_one_detected (v : String) :
    countConfirmed [CorrectionEvent.DETECTED v] = 0 := rfl

/-- A singleton CHANGED event list counts no CONFIRMED event. -/
theorem countConfirmed_one_changed (v : String) :
    countConfirmed [CorrectionEvent.CHANGED v] = 0 := rfl

/-- DETECTED counting distributes over appending event lists. -/
theorem countDetected_append (a b : List CorrectionEvent) :
    countDetected (a ++ b) = countDetected a + countDetected b := by
  simp [countDetected, List.countP_append]

/-- An empty event list holds no DETECTED event. -/
theorem countDetected_nil : countDetected [] = 0 := rfl

/-- A singleton CONFIRMED event list counts no DETECTED event. -/
theorem countDetected_one_confirmed (v : String) :
    countDetected [CorrectionEvent.CONFIRMED v] = 0 := rfl

/-- A singleton DETECTED event list counts one DETECTED event. -/
theorem countDetected_one_detected (v : String) :
    countDetected [CorrectionEvent.DETECTED v] = 1 := rfl

/-- A singleton CHANGED event list counts no DETECTED event. -/
theorem countDetected_one_changed (v : String) :
    countDetected [CorrectionEvent.CHANGED v] = 0 := rfl

/-- Helper: processing a list of found non-placeholder snapshots from a
state whose detected flag is set adds the number of confirming
observations to the verification count, and emits exactly one CONFIRMED
event precisely when the count crosses three during the list. -/
theorem run_from_detected (rs : List ResultSnapshot) :
    ∀ c : Nat, (∀ r ∈ rs, r.success = true ∧ r.mark ≠ CURRENT_WRONG_VALUE) →
    (process_list { correction_detected := true, verification_count := c }
        rs).1 =
      { correction_detected := true,
        verification_count := c + confirmingCount rs } ∧
    countConfirmed
        (process_list { correction_detected := true, verification_count := c }
          rs).2 =
      (if c < 3 ∧ 3 ≤ c + confirmingCount rs then 1 else 0) := by
  induction rs with
  | nil =>
    intro c _
    constructor
    · simp [process_list, confirmingCount]
    · have hno : ¬(c < 3 ∧ 3 ≤ c + confirmingCount ([] : List ResultSnapshot)) := by
        simp only [confirmingCount, List.countP_nil]
        omega
      simp [process_list, countConfirmed, hno]
  | cons r rs ih =>
    intro c h
    obtain ⟨hrs, hmna⟩ := h r (List.mem_cons_self r rs)
    have hrest : ∀ x ∈ rs, x.success = true ∧ x.mark ≠ CURRENT_WRONG_VALUE :=
      fun x hx => h x (List.mem_cons_of_mem r hx)
    by_cases hic : is_corrected r.mark = true
    · have hcc : confirmingCount (r :: rs) = confirmingCount rs + 1 := by
        simp [confirmingCount, List.countP_cons, hic]
      obtain ⟨ihs, ihc⟩ := ih (c + 1) hrest
      by_cases h3 : c + 1 = 3
      · have step : process_result
            { correction_detected := true, verification_count := c } r =
            ({ correction_detected := true, verification_count := c + 1 },
             [CorrectionEvent.CONFIRMED r.mark]) := by
          simp [process_result, hrs, hic, h3]
        rw [process_list_cons _ _ _ _ _ step]
        constructor
        · rw [ihs, hcc]
          simp only [CorrectionState.mk.injEq, true_and]
          omega
        · rw [countConfirmed_append, countConfirmed_one_confirmed, ihc, hcc]
          split_ifs <;> omega
      · have step : process_result
            { correction_detected := true, verification_count := c } r =
            ({ correction_detected := true, verification_count := c + 1 },
             []) := by
          simp [process_result, hrs, hic, h3]
        rw [process_list_cons _ _ _ _ _ step]
        constructor
        · rw [ihs, hcc]
          simp only [CorrectionState.mk.injEq, true_and]
          omega
        · rw [countConfirmed_append, countConfirmed_nil, ihc, hcc]
          split_ifs <;> omega
    · have hcc : confirmingCount (r :: rs) = confirmingCount rs := by
        simp [confirmingCount, List.countP_cons, hic]
      obtain ⟨ihs, ihc⟩ := ih c hrest
      have step : process_result
          { correction_detected := true, verification_count := c } r =
          ({ correction_detected := true, verification_count := c }, []) := by
        simp [process_result, hrs, hic, hmna]
      rw [process_list_cons _ _ _ _ _ step]
      constructor
      · rw [ihs, hcc]
      · rw [countConfirmed_append, countConfirmed_nil, ihc, hcc]
        omega

/-- Claim C2: along a run of found non-placeholder snapshots beginning
with a confirming (expected or other-numeric) value, processed from the
run-start state (detected flag clear, count zero, the state every maximal
run starts from), every prefix of the run has emitted CONFIRMED exactly
once if the prefix holds at least three confirming observations and never
otherwise; so CONFIRMED fires exactly on the third confirming observation,
never earlier and never again. -/
theorem confirmed_on_third_confirming (r0 : ResultSnapshot)
    (rest : List ResultSnapshot) (h0s : r0.success = true)
    (h0c : is_corrected r0.mark = true)
    (hrest : ∀ r ∈ rest, r.success = true ∧ r.mark ≠ CURRENT_WRONG_VALUE) :
    ∀ k, k ≤ (r0 :: rest).length →
      countConfirmed
          (process_list initCorrectionState ((r0 :: rest).take k)).2 =
        (if 3 ≤ confirmingCount ((r0 :: rest).take k) then 1 else 0) := by
  intro k _
  cases k with
  | zero => simp [process_list, countConfirmed, confirmingCount]
  | succ k =>
    have htake : (r0 :: rest).take (k + 1) = r0 :: rest.take k := rfl
    rw [htake]
    have step : process_result initCorrectionState r0 =
        ({ correction_detected := true, verification_count := 1 },
         [CorrectionEvent.DETECTED r0.mark]) := by
      simp [process_result, initCorrectionState, h0s, h0c]
    rw [process_list_cons _ _ _ _ _ step]
    have hsub : ∀ x ∈ rest.take k,
        x.success = true ∧ x.mark ≠ CURRENT_WRONG_VALUE :=
      fun x hx => hrest x (List.take_subset k rest hx)
    obtain ⟨_, ihc⟩ := run_from_detected (rest.take k) 1 hsub
    rw [countConfirmed_append, countConfirmed_one_detected, ihc]
    have hcc : confirmingCount (r0 :: rest.take k) =
        confirmingCount (rest.take k) + 1 := by
      simp [confirmingCount, List.countP_cons, h0c]
    rw [hcc]
    split_ifs <;> omega

/-- Witness for claim C2: four consecutive expected-value observations;
after the three-observation prefix CONFIRMED has been emitted once. -/
theorem confirmed_on_third_confirming_witness :
    countConfirmed
        (process_list initCorrectionState
          (([{ success := true, mark := "68" },
             { success := true, mark := "68" },
             { success := true, mark := "68" },
             { success := true, mark := "68" }] :
            List ResultSnapshot).take 3)).2 =
      (if 3 ≤ confirmingCount
          (([{ success := true, mark := "68" },
             { success := true, mark := "68" },
             { success := true, mark := "68" },
             { success := true, mark := "68" }] :
            List ResultSnapshot).take 3) then 1 else 0) :=
  confirmed_on_third_confirming { success := true, mark := "68" }
    [{ success := true, mark := "68" }, { success := true, mark := "68" },
     { success := true, mark := "68" }] rfl (by decide) (by decide)
    3 (by decide)

/-- Claim C10: when the first value of a run is non-numeric and differs
from both the expected value and the placeholder, the machine emits
CHANGED, sets the detected flag but leaves the verification count at
zero; if the run continues with confirming values, CONFIRMED is emitted
on the third of those, that is, on the fourth observation of the run. -/
theorem changed_then_confirmed_on_fourth (r0 : ResultSnapshot)
    (rest : List ResultSnapshot) (h0s : r0.success = true)
    (h0nd : pyIsdigit r0.mark = false) (h0ne : r0.mark ≠ EXPECTED_MARK)
    (h0np : r0.mark ≠ CURRENT_WRONG_VALUE)
    (hrest : ∀ r ∈ rest, r.success = true ∧ is_corrected r.mark = true) :
    process_result initCorrectionState r0 =
      ({ correction_detected := true, verification_count := 0 },
       [CorrectionEvent.CHANGED r0.mark]) ∧
    ∀ k, k ≤ (r0 :: rest).length →
      countConfirmed
          (process_list initCorrectionState ((r0 :: rest).take k)).2 =
        (if 4 ≤ k then 1 else 0) := by
  have h0c : is_corrected r0.mark = false := by
    simp [is_corrected, h0nd, beq_iff_eq, h0ne]
  have step : process_result initCorrectionState r0 =
      ({ correction_detected := true, verification_count := 0 },
       [CorrectionEvent.CHANGED r0.mark]) := by
    simp [process_result, initCorrectionState, h0s, h0c, h0np]
  refine ⟨step, ?_⟩
  intro k hk
  cases k with
  | zero => simp [process_list, countConfirmed]
  | succ k =>
    have htake : (r0 :: rest).take (k + 1) = r0 :: rest.take k := rfl
    rw [htake, process_list_cons _ _ _ _ _ step]
    have hna : is_corrected CURRENT_WRONG_VALUE = false := by decide
    have hsub : ∀ x ∈ rest.take k,
        x.success = true ∧ x.mark ≠ CURRENT_WRONG_VALUE := by
      intro x hx
      obtain ⟨hxs, hxc⟩ := hrest x (List.take_subset k rest hx)
      refine ⟨hxs, ?_⟩
      intro hxm
      rw [hxm, hna] at hxc
      exact Bool.false_ne_true hxc
    obtain ⟨_, ihc⟩ := run_from_detected (rest.take k) 0 hsub
    rw [countConfirmed_append, countConfirmed_one_changed, ihc]
    have hcc : confirmingCount (rest.take k) = k := by
      have h1 : confirmingCount (rest.take k) = (rest.take k).length :=
        List.countP_eq_length.mpr
          (fun x hx => (hrest x (List.take_subset k rest hx)).2)
      rw [h1, List.length_take]
      have hk2 : k ≤ rest.length := by
        simpa [Nat.succ_le_succ_iff] using hk
      omega
    rw [hcc]
    split_ifs <;> omega

/-- Witness for claim C10: a non-numeric changed value followed by three
expected values; CONFIRMED has been emitted once after four observations. -/
theorem changed_then_confirmed_on_fourth_witness :
    countConfirmed
        (process_list initCorrectionState
          (([{ success := true, mark := "AB" },
             { success := true, mark := "68" },
             { success := true, mark := "68" },
             { success := true, mark := "68" }] :
            List ResultSnapshot).take 4)).2 =
      (if 4 ≤ 4 then 1 else 0) :=
  (changed_then_confirmed_on_fourth { success := true, mark := "AB" }
    [{ success := true, mark := "68" }, { success := true, mark := "68" },
     { success := true, mark := "68" }] rfl (by decide) (by decide)
    (by decide) (by decide)).2 4 (by decide)

/-- Helper: while the detected flag is set, processing any list of
snapshots in which every found snapshot is non-placeholder emits no
DETECTED event and leaves the flag set. -/
theorem no_detected_while_detected (rs : List ResultSnapshot) :
    ∀ st : CorrectionState, st.correction_detected = true →
    (∀ r ∈ rs, r.success = true → r.mark ≠ CURRENT_WRONG_VALUE) →
    countDetected (process_list st rs).2 = 0 ∧
    (process_list st rs).1.correction_detected = true := by
  induction rs with
  | nil =>
    intro st hd _
    exact ⟨rfl, hd⟩
  | cons r rs ih =>
    intro st hd h
    have hrest : ∀ x ∈ rs, x.success = true → x.mark ≠ CURRENT_WRONG_VALUE :=
      fun x hx => h x (List.mem_cons_of_mem r hx)
    have hm := h r (List.mem_cons_self r rs)
    obtain ⟨cd, n⟩ := st
    have hcd : cd = true := hd
    subst hcd
    cases hrs : r.success with
    | false =>
      have step : process_result
          { correction_detected := true, verification_count := n } r =
          ({ correction_detected := true, verification_count := n }, []) := by
        simp [process_result, hrs]
      rw [process_list_cons _ _ _ _ _ step]
      obtain ⟨ih1, ih2⟩ := ih
        { correction_detected := true, verification_count := n } rfl hrest
      exact ⟨by rw [countDetected_append, countDetected_nil, ih1], ih2⟩
    | true =>
      by_cases hic : is_corrected r.mark = true
      · by_cases h3 : n + 1 = 3
        · have step : process_result
              { correction_detected := true, verification_count := n } r =
              ({ correction_detected := true, verification_count := n + 1 },
               [CorrectionEvent.CONFIRMED r.mark]) := by
            simp [process_result, hrs, hic, h3]
          rw [process_list_cons _ _ _ _ _ step]
          obtain ⟨ih1, ih2⟩ := ih
            { correction_detected := true, verification_count := n + 1 }
            rfl hrest
          exact ⟨by rw [countDetected_append, countDetected_one_confirmed, ih1],
            ih2⟩
        · have step : process_result
              { correction_detected := true, verification_count := n } r =
              ({ correction_detected := true, verification_count := n + 1 },
               []) := by
            simp [process_result, hrs, hic, h3]
          rw [process_list_cons _ _ _ _ _ step]
          obtain ⟨ih1, ih2⟩ := ih
            { correction_detected := true, verification_count := n + 1 }
            rfl hrest
          exact ⟨by rw [countDetected_append, countDetected_nil, ih1], ih2⟩
      · have hmna : r.mark ≠ CURRENT_WRONG_VALUE := hm hrs
        have step : process_result
            { correction_detected := true, verification_count := n } r =
            ({ correction_detected := true, verification_count := n }, []) := by
          simp [process_result, hrs, hic, hmna]
        rw [process_list_cons _ _ _ _ _ step]
        obtain ⟨ih1, ih2⟩ := ih
          { correction_detected := true, verification_count := n } rfl hrest
        exact ⟨by rw [countDetected_append, countDetected_nil, ih1], ih2⟩

/-- Claim C3: over any list of snapshots in which every found snapshot is
non-placeholder (one run, with failed fetches allowed in between),
DETECTED is emitted at most once from any starting state, and never while
the detected flag is already set; only a placeholder observation can
clear the flag again. -/
theorem detected_at_most_once (st : CorrectionState)
    (rs : List ResultSnapshot)
    (h : ∀ r ∈ rs, r.success = true → r.mark ≠ CURRENT_WRONG_VALUE) :
    countDetected (process_list st rs).2 ≤ 1 ∧
    (st.correction_detected = true →
      countDetected (process_list st rs).2 = 0) := by
  constructor
  · induction rs generalizing st with
    | nil => simp [process_list, countDetected]
    | cons r rs ih =>
      have hrest : ∀ x ∈ rs, x.success = true → x.mark ≠ CURRENT_WRONG_VALUE :=
        fun x hx => h x (List.mem_cons_of_mem r hx)
      have hm := h r (List.mem_cons_self r rs)
      obtain ⟨cd, n⟩ := st
      cases cd with
      | true =>
        have h0 := (no_detected_while_detected (r :: rs)
          { correction_detected := true, verification_count := n } rfl h).1
        omega
      | false =>
        cases hrs : r.success with
        | false =>
          have step : process_result
              { correction_detected := false, verification_count := n } r =
              ({ correction_detected := false, verification_count := n },
               []) := by
            simp [process_result, hrs]
          rw [process_list_cons _ _ _ _ _ step, countDetected_append,
            countDetected_nil]
          have h0 := ih
            { correction_detected := false, verification_count := n } hrest
          omega
        | true =>
          by_cases hic : is_corrected r.mark = true
          · have step : process_result
                { correction_detected := false, verification_count := n } r =
                ({ correction_detected := true, verification_count := 1 },
                 [CorrectionEvent.DETECTED r.mark]) := by
              simp [process_result, hrs, hic]
            rw [process_list_cons _ _ _ _ _ step, countDetected_append,
              countDetected_one_detected]
            have h0 := (no_detected_while_detected rs
              { correction_detected := true, verification_count := 1 }
              rfl hrest).1
            omega
          · have hmna : r.mark ≠ CURRENT_WRONG_VALUE := hm hrs
            have step : process_result
                { correction_detected := false, verification_count := n } r =
                ({ correction_detected := true, verification_count := n },
                 [CorrectionEvent.CHANGED r.mark]) := by
              simp [process_result, hrs, hic, hmna]
            rw [process_list_cons _ _ _ _ _ step, countDetected_append,
              countDetected_one_changed]
            have h0 := (no_detected_while_detected rs
              { correction_detected := true, verification_count := n }
              rfl hrest).1
            omega
  · intro hd
    exact (no_detected_while_detected rs st hd h).1

/-- Witness for claim C3: two consecutive expected-value observations from
the initial state emit DETECTED exactly once and at most once. -/
theorem detected_at_most_once_witness :
    countDetected
        (process_list initCorrectionState
          ([{ success := true, mark := "68" },
            { success := true, mark := "68" }] : List ResultSnapshot)).2 ≤ 1 ∧
    (initCorrectionState.correction_detected = true →
      countDetected
          (process_list initCorrectionState
            ([{ success := true, mark := "68" },
              { success := true, mark := "68" }] : List ResultSnapshot)).2 =
        0) :=
  detected_at_most_once initCorrectionState
    [{ success := true, mark := "68" }, { success := true, mark := "68" }]
    (by decide)

/-- Claim C9 counterexample: under the spec class definitions read as
stated, the expected value 68 falls into two classes at once, IsExpected
and IsOtherNumeric (it is numeric and differs from the placeholder), so
it is not the case that exactly one class holds for every found value. -/
theorem class_overlap_at_expected :
    classCount "68" = 2 ∧ isExpectedClass "68" = true ∧
    isOtherNumericClass "68" = true := by decide

/-- Claim C9 amended: with IsOtherNumeric restricted to numeric values
different from both the placeholder and the expected value (the
first-match reading of the spec list), exactly one class holds for every
value, and the program branches realise the classes exactly: the
corrected branch is IsExpected or amended IsOtherNumeric, the placeholder
branch is IsPlaceholder, and the remaining branch is IsOtherNonNumeric;
as an if-elif-else chain the branches are mutually exclusive and
exhaustive. -/
theorem classes_partition_amended (v : String) :
    classCountAmended v = 1 ∧
    is_corrected v = (isExpectedClass v || isOtherNumericClassAmended v) ∧
    (!is_corrected v && v == CURRENT_WRONG_VALUE) = isPlaceholderClass v ∧
    (!is_corrected v && !(v == CURRENT_WRONG_VALUE)) =
      isOtherNonNumericClass v := by
  by_cases hP : v = CURRENT_WRONG_VALUE
  · subst hP
    decide
  · by_cases hE : v = EXPECTED_MARK
    · subst hE
      decide
    · have hP2 : (v == CURRENT_WRONG_VALUE) = false :=
        beq_eq_false_iff_ne.mpr hP
      have hE2 : (v == EXPECTED_MARK) = false := beq_eq_false_iff_ne.mpr hE
      cases hD : pyIsdigit v with
      | false =>
        simp [classCountAmended, isPlaceholderClass, isExpectedClass,
          isOtherNumericClassAmended, isOtherNonNumericClass,
          isOtherNumericClass, is_corrected, hP2, hE2, hD]
      | true =>
        simp only [classCountAmended, isPlaceholderClass, isExpectedClass,
          isOtherNumericClassAmended, isOtherNonNumericClass,
          isOtherNumericClass, is_corrected, hP2, hE2, hD]
        simp [hP2, hE2]
        refine ⟨?_, fun _ => hE⟩
        have h1 : ¬(v = CURRENT_WRONG_VALUE ∨ v = EXPECTED_MARK) := by
          rintro (h | h)
          · exact hP h
          · exact hE h
        rw [if_pos ⟨hP, hE⟩, if_neg h1]

/-- Supporting lemma for the maximal-run framing: from any state
satisfying the count-implies-detected invariant, processing a found
placeholder snapshot leaves the machine in the initial state, which is
therefore the state at the start of every maximal non-placeholder run. -/
theorem placeholder_resets_to_init (st : CorrectionState)
    (r : ResultSnapshot)
    (hinv : 0 < st.verification_count → st.correction_detected = true)
    (hs : r.success = true) (hm : r.mark = CURRENT_WRONG_VALUE) :
    (process_result st r).1 = initCorrectionState := by
  have hna : is_corrected CURRENT_WRONG_VALUE = false := by decide
  obtain ⟨cd, n⟩ := st
  cases cd with
  | true => simp [process_result, hs, hm, hna, initCorrectionState]
  | false =>
    have hn : n = 0 := by
      by_contra hn
      exact Bool.false_ne_true (hinv (Nat.pos_of_ne_zero hn))
    subst hn
    simp [process_result, hs, hm, hna, initCorrectionState]

end BEUMonitor
